import Mathlib

set_option maxHeartbeats 1000000
set_option maxRecDepth 4000

/-!
Shallow embedding of the a2a-multiagent sample code:
  * `cosmos_query_agent/agent.py` (CosmosQueryAgent)
  * `cosmos_query_agent/agent_executor.py` (CosmosQueryAgentExecutor)
  * `playwright_agent/agent_executor.py` (SemanticKernelMCPAgentExecutor)
  * `test_mcp_complete.py`

Python strings are Lean `String`s, JSON values are `JVal`, Python `None`
returns are `Option.none`, exceptions are `Except String` with the
exception's `str()` as the error payload.
-/

/-! ### Python string primitives -/

/-- Python `str.lower()` (the inputs of interest are ASCII). -/
def pyLower (s : String) : String := String.mk (s.toList.map Char.toLower)

/-- Substring occurrence on character lists (Python `pat in s` on `str`). -/
def listContainsSeq (pat : List Char) : List Char → Bool
  | [] => pat.isEmpty
  | c :: rest => pat.isPrefixOf (c :: rest) || listContainsSeq pat rest

/-- Python `pat in s` for strings: substring containment. -/
def pyIn (pat s : String) : Bool := listContainsSeq pat.toList s.toList

/-- Python `str.isspace` characters relevant to `str.split()`. -/
def pyIsSpace (c : Char) : Bool :=
  c == ' ' || c == '\t' || c == '\n' || c == '\r' || c == '\x0b' || c == '\x0c'

/-- Python `str.split()` with no argument: split on whitespace runs,
dropping empty pieces. -/
def pySplit (s : String) : List String :=
  ((s.toList.splitOnP pyIsSpace).filter (fun w => !w.isEmpty)).map String.mk

/-- Numeric value of a digit run (`int()` of a `\d+` match). -/
def digitsVal (ds : List Char) : Nat := ds.foldl (fun acc c => 10 * acc + (c.toNat - 48)) 0

/-- First maximal digit run in the character list, as a number:
`re.findall(r"\d+", query)[0]` when a digit occurs, else `none`. -/
def firstNumber : List Char → Option Nat
  | [] => none
  | c :: rest =>
    if c.isDigit then some (digitsVal (c :: rest.takeWhile Char.isDigit))
    else firstNumber rest

/-! ### JSON values (the shapes `response.json()` can produce) -/

inductive JVal where
  | jnull
  | jbool (b : Bool)
  | jnum (n : Int)
  | jstr (s : String)
  | jarr (elems : List JVal)
  | jobj (fields : List (String × JVal))
deriving Repr, BEq

mutual

/-- Python `repr()` of a JSON-shaped value (used for elements nested in
containers when formatting). -/
def pyQuote : JVal → String
  | .jnull => "None"
  | .jbool true => "True"
  | .jbool false => "False"
  | .jnum n => toString n
  | .jstr s => "\x27" ++ s ++ "\x27"
  | .jarr xs => "[" ++ pyQuoteElems xs ++ "]"
  | .jobj fs => "\x7b" ++ pyQuoteFields fs ++ "\x7d"

def pyQuoteElems : List JVal → String
  | [] => ""
  | [x] => pyQuote x
  | x :: y :: rest => pyQuote x ++ ", " ++ pyQuoteElems (y :: rest)

def pyQuoteFields : List (String × JVal) → String
  | [] => ""
  | [(k, v)] => "\x27" ++ k ++ "\x27: " ++ pyQuote v
  | (k, v) :: f :: rest => "\x27" ++ k ++ "\x27: " ++ pyQuote v ++ ", " ++ pyQuoteFields (f :: rest)

end

/-- Python `str()` as used by f-string interpolation: strings unchanged,
containers via `repr` of their elements. -/
def pyStr : JVal → String
  | .jstr s => s
  | v => pyQuote v

/-! ### Python operations on parsed JSON, with exceptions
(`Except String` carries `str(e)` of the raised exception). -/

/-- Python `key in value` (`in` on a dict tests keys, on a list tests
elements, on a string tests substrings; elsewhere it raises TypeError). -/
def pyContains (v : JVal) (k : String) : Except String Bool :=
  match v with
  | .jobj fs => .ok (fs.lookup k).isSome
  | .jarr xs => .ok (xs.any (fun x => x == .jstr k))
  | .jstr s => .ok (pyIn k s)
  | .jnull => .error "argument of type \x27NoneType\x27 is not iterable"
  | .jbool _ => .error "argument of type \x27bool\x27 is not iterable"
  | .jnum _ => .error "argument of type \x27int\x27 is not iterable"

/-- Python `value[k]` for a string key `k`. -/
def pySubscript (v : JVal) (k : String) : Except String JVal :=
  match v with
  | .jobj fs =>
    match fs.lookup k with
    | some w => .ok w
    | none => .error ("\x27" ++ k ++ "\x27")
  | .jarr _ => .error "list indices must be integers or slices, not str"
  | .jstr _ => .error "string indices must be integers"
  | .jnull => .error "\x27NoneType\x27 object is not subscriptable"
  | .jbool _ => .error "\x27bool\x27 object is not subscriptable"
  | .jnum _ => .error "\x27int\x27 object is not subscriptable"

/-- Python `value.get(k, default)`: only dicts have `.get`. -/
def pyGetMethod (v : JVal) (k : String) (dflt : JVal) : Except String JVal :=
  match v with
  | .jobj fs => .ok ((fs.lookup k).getD dflt)
  | .jarr _ => .error "\x27list\x27 object has no attribute \x27get\x27"
  | .jstr _ => .error "\x27str\x27 object has no attribute \x27get\x27"
  | .jnull => .error "\x27NoneType\x27 object has no attribute \x27get\x27"
  | .jbool _ => .error "\x27bool\x27 object has no attribute \x27get\x27"
  | .jnum _ => .error "\x27int\x27 object has no attribute \x27get\x27"

/-- Python `value[0]`. -/
def pyIndex0 (v : JVal) : Except String JVal :=
  match v with
  | .jarr [] => .error "list index out of range"
  | .jarr (x :: _) => .ok x
  | .jstr s =>
    match s.toList with
    | [] => .error "string index out of range"
    | c :: _ => .ok (.jstr (String.mk [c]))
  | .jobj _ => .error "0"
  | .jnull => .error "\x27NoneType\x27 object is not subscriptable"
  | .jbool _ => .error "\x27bool\x27 object is not subscriptable"
  | .jnum _ => .error "\x27int\x27 object is not subscriptable"

/-! ### `CosmosQueryAgent._call_mcp_tool` -/

/-- Outcome of `httpx.AsyncClient.post` on the MCP endpoint: a transport
exception, or a response with a status code, raw text body and the result
of `response.json()` (`.error` = JSONDecodeError message). -/
inductive CallOutcome where
  | transportError (msg : String)
  | httpResponse (status : Nat) (bodyText : String) (parsed : Except String JVal)
deriving Repr

/-- Body of the `try` block in `_call_mcp_tool` (agent.py lines 81-112):
any `.error` is an exception escaping to the outer `except`. -/
def callMcpToolBody (outcome : CallOutcome) : Except String JVal :=
  match outcome with
  | .transportError msg => .error msg
  | .httpResponse status body parsed =>
    if status = 200 then
      match parsed with
      | .error m => .error m
      | .ok result =>
        match pyContains result "result" with
        | .error m => .error m
        | .ok true =>
          match pySubscript result "result" with
          | .error m => .error m
          | .ok r =>
            match pyGetMethod r "content" (.jarr [.jobj []]) with
            | .error m => .error m
            | .ok content =>
              match pyIndex0 content with
              | .error m => .error m
              | .ok first => pyGetMethod first "text" (.jstr "No result")
        | .ok false =>
          match pyContains result "error" with
          | .error m => .error m
          | .ok true =>
            match pySubscript result "error" with
            | .error m => .error m
            | .ok e =>
              match pyGetMethod e "message" (.jstr "Unknown error") with
              | .error m => .error m
              | .ok msg => .ok (.jstr ("Error: " ++ pyStr msg))
          | .ok false => .ok (.jstr "Unknown response format")
    else .ok (.jstr ("HTTP Error " ++ toString status ++ ": " ++ body))

/-- `CosmosQueryAgent._call_mcp_tool`: the `try` body, with the
catch-all `except` turning any exception into an error string.  The tool
name and arguments shape the request only; the reply is `outcome`. -/
def callMcpTool (toolName : String) (arguments : List (String × JVal))
    (outcome : CallOutcome) : JVal :=
  match toolName, arguments, callMcpToolBody outcome with
  | _, _, .ok v => v
  | _, _, .error e => .jstr ("Error calling tool: " ++ e)

/-! ### `CosmosQueryAgent.process_query` -/

/-- `args = {"container_name": container_name} if container_name else {}`
(Python truthiness: `None` and the empty string give `{}`). -/
def optStrArgs (key : String) (v : Option String) : List (String × JVal) :=
  match v with
  | some s => if s = "" then [] else [(key, .jstr s)]
  | none => []

/-- Argument dict built by `get_sample_documents`: the container name when
truthy, the limit only when it differs from the default 5. -/
def sampleDocArgs (cn : Option String) (limit : Nat) : List (String × JVal) :=
  optStrArgs "container_name" cn ++ (if limit = 5 then [] else [("limit", .jnum limit)])

/-- The limit computed by the sample branch of `process_query`:
`min(int(numbers[0]), 10)` when the query contains a digit run, else the
default 5 (agent.py lines 256-266). -/
def sampleLimit (query : String) : Nat :=
  match firstNumber query.toList with
  | some k => min k 10
  | none => 5

/-- The loop in the describe branch: first word whose lowercase form is
exactly "container" and which has a successor yields that successor. -/
def findAfterContainer : List String → Option String
  | [] => none
  | [_] => none
  | w :: next :: rest =>
    if pyLower w = "container" then some next else findAfterContainer (next :: rest)

/-- `CosmosQueryAgent._handle_general_query` (agent.py lines 322-343). -/
def handle_general_query (query : String) : String :=
  "I can help you explore and query the Cosmos DB data using these capabilities:\n\n🔍 **Query Operations:**\n- Run SQL-like queries: \"SELECT * FROM c WHERE c.agent_name = \x27TimeAgent\x27\"\n- Find time_agent data: \"Show me time_agent entries\"\n\n📋 **Data Exploration:**\n- List containers: \"Show me all containers\"\n- Describe schema: \"Describe the actions container\"\n- Get samples: \"Show me sample documents from actions\"\n- Count documents: \"How many documents are in actions?\"\n\n🔧 **Technical Info:**\n- Partition keys: \"Show partition key info for actions\"\n- Indexing policies: \"Show indexing policy\"\n- Relationships: \"Find relationships in the data\"\n\nYour query: \"" ++ query ++ "\"\n\nWhat would you like to explore? You can ask for any of the above operations or run direct SQL queries."

/-- Observable behaviour of one `process_query` invocation: the MCP tool
calls made (name and argument dict, in order) and the Python return value
(`none` models returning `None`). -/
structure ProcResult where
  calls : List (String × List (String × JVal))
  response : Option String
deriving Repr

/-- `CosmosQueryAgent.process_query` (agent.py lines 217-320).  `outcome`
is the MCP server's behaviour for the (at most one) tool call made. -/
def process_query (query : String) (outcome : CallOutcome) : ProcResult :=
  let ql := pyLower query
  if pyIn "list" ql || pyIn "show" ql || pyIn "containers" ql || pyIn "collections" ql || pyIn "databases" ql then
    if pyIn "container" ql || pyIn "collection" ql then
      { calls := [("list_collections", [])],
        response := some ("Available containers in the database:\n" ++ pyStr (callMcpTool "list_collections" [] outcome)) }
    else
      -- the outer `if` body ends without a `return`: Python returns None
      { calls := [], response := none }
  else if pyIn "describe" ql || pyIn "schema" ql || pyIn "structure" ql || pyIn "fields" ql then
    let container_name : Option String :=
      if pyIn "actions" ql then some "actions"
      else if pyIn "container" ql then findAfterContainer (pySplit query)
      else none
    let args := optStrArgs "container_name" container_name
    { calls := [("describe_container", args)],
      response := some ("Container schema information:\n" ++ pyStr (callMcpTool "describe_container" args outcome)) }
  else if pyIn "sample" ql || pyIn "example" ql || pyIn "preview" ql || pyIn "show me" ql then
    let container_name : Option String := if pyIn "actions" ql then some "actions" else none
    let args := sampleDocArgs container_name (sampleLimit query)
    { calls := [("get_sample_documents", args)],
      response := some ("Sample documents:\n" ++ pyStr (callMcpTool "get_sample_documents" args outcome)) }
  else if pyIn "count" ql || pyIn "how many" ql || pyIn "number of" ql then
    let args := optStrArgs "container_name" (if pyIn "actions" ql then some "actions" else none)
    { calls := [("count_documents", args)],
      response := some ("Document count:\n" ++ pyStr (callMcpTool "count_documents" args outcome)) }
  else if pyIn "partition" ql || pyIn "partitioning" ql || pyIn "partition key" ql then
    let args := optStrArgs "container_name" (if pyIn "actions" ql then some "actions" else none)
    { calls := [("get_partition_key_info", args)],
      response := some ("Partition key information:\n" ++ pyStr (callMcpTool "get_partition_key_info" args outcome)) }
  else if pyIn "index" ql || pyIn "indexing" ql || pyIn "policy" ql then
    let args := optStrArgs "container_name" (if pyIn "actions" ql then some "actions" else none)
    { calls := [("get_indexing_policy", args)],
      response := some ("Indexing policy:\n" ++ pyStr (callMcpTool "get_indexing_policy" args outcome)) }
  else if pyIn "relationship" ql || pyIn "links" ql || pyIn "foreign key" ql || pyIn "references" ql then
    let args := optStrArgs "container_name" (if pyIn "actions" ql then some "actions" else none)
    { calls := [("find_implied_links", args)],
      response := some ("Relationship analysis:\n" ++ pyStr (callMcpTool "find_implied_links" args outcome)) }
  else if pyIn "select" ql || pyIn "from" ql then
    let args := [("query", JVal.jstr query)]
    { calls := [("query_cosmos", args)],
      response := some ("Query results:\n" ++ pyStr (callMcpTool "query_cosmos" args outcome)) }
  else if pyIn "time_agent" ql || pyIn "timeagent" ql || pyIn "time agent" ql then
    let args := [("query", JVal.jstr "SELECT * FROM c WHERE c.agent_name = \x27TimeAgent\x27 ORDER BY c._ts DESC")]
    { calls := [("query_cosmos", args)],
      response := some ("Time Agent data:\n" ++ pyStr (callMcpTool "query_cosmos" args outcome)) }
  else
    { calls := [], response := some (handle_general_query query) }

/-! ### Spec-side routing description (for the refinement claim about
`process_query`): which single MCP tool each keyword group dispatches to. -/

inductive Route where
  | tool (name : String)
  | skipped
  | help
deriving Repr, DecidableEq

/-- Routing as the specification describes it (amended with the inner
guard of the first group): the first matching keyword group determines
the single MCP tool called; the first group additionally requires
"container" or "collection" and otherwise dispatches nowhere (`skipped`);
a query matching no group gets the capability help text. -/
def claimedRoute (query : String) : Route :=
  let ql := pyLower query
  if pyIn "list" ql || pyIn "show" ql || pyIn "containers" ql || pyIn "collections" ql || pyIn "databases" ql then
    if pyIn "container" ql || pyIn "collection" ql then .tool "list_collections" else .skipped
  else if pyIn "describe" ql || pyIn "schema" ql || pyIn "structure" ql || pyIn "fields" ql then
    .tool "describe_container"
  else if pyIn "sample" ql || pyIn "example" ql || pyIn "preview" ql || pyIn "show me" ql then
    .tool "get_sample_documents"
  else if pyIn "count" ql || pyIn "how many" ql || pyIn "number of" ql then
    .tool "count_documents"
  else if pyIn "partition" ql || pyIn "partitioning" ql || pyIn "partition key" ql then
    .tool "get_partition_key_info"
  else if pyIn "index" ql || pyIn "indexing" ql || pyIn "policy" ql then
    .tool "get_indexing_policy"
  else if pyIn "relationship" ql || pyIn "links" ql || pyIn "foreign key" ql || pyIn "references" ql then
    .tool "find_implied_links"
  else if pyIn "select" ql || pyIn "from" ql then
    .tool "query_cosmos"
  else if pyIn "time_agent" ql || pyIn "timeagent" ql || pyIn "time agent" ql then
    .tool "query_cosmos"
  else
    .help

/-! ### `CosmosQueryAgent.initialize` / `_test_mcp_connection` -/

/-- Outcome of the health-endpoint GET in `_test_mcp_connection`: either
the request raised, or it returned a status code. -/
inductive HealthOutcome where
  | exn (msg : String)
  | resp (status : Nat)
deriving Repr, DecidableEq

/-- Body of the `try` in `_test_mcp_connection` (agent.py lines 55-62):
returns the log lines it emits; `.error` is an escaping exception. -/
def testMcpConnectionBody (h : HealthOutcome) : Except String (List String) :=
  match h with
  | .exn m => .error m
  | .resp status =>
    if status = 200 then .ok ["✅ MCP server is reachable"]
    else .ok ["MCP server returned status " ++ toString status]

/-- `CosmosQueryAgent._test_mcp_connection`: the catch-all `except` only
logs a warning, so no exception escapes. -/
def testMcpConnection (h : HealthOutcome) : List String :=
  match testMcpConnectionBody h with
  | .ok logs => logs
  | .error m => ["Could not test MCP server health endpoint: " ++ m]

/-- `CosmosQueryAgent.initialize` (agent.py lines 35-51): runs
`_test_mcp_connection` inside a `try`; returns `True` unless that call
raises (its own handler would have to re-raise, which it never does). -/
def agentInit (h : HealthOutcome) : Bool :=
  match testMcpConnectionBody h with
  | .ok _ => true          -- `_test_mcp_connection` body completed
  | .error _ => true       -- exception caught and logged inside `_test_mcp_connection`

/-! ### `CosmosQueryAgentExecutor` (agent_executor.py) -/

/-- Events enqueued by the Cosmos executor.  `statusUpdate` carries the
`status` and `state` constants (as their names) and the message;
`artifactUpdate` carries the artifact text (`none` = Python `None`) and
title. -/
inductive CosmosEvent where
  | statusUpdate (status : String) (state : String) (message : String)
  | artifactUpdate (content : Option String) (title : String)
deriving Repr, DecidableEq

/-- Where (if anywhere) an exception is raised inside the `try` block of
`CosmosQueryAgentExecutor.execute`, with its `str()`.  `process_query`
itself never raises (its catch-all returns a string), so the raise sites
are the framework calls. -/
inductive ExnAt where
  | noExn
  | atStatusEnqueue (msg : String)
  | atArtifactBuild (msg : String)
  | atArtifactEnqueue (msg : String)
  | atCompletedEnqueue (msg : String)
deriving Repr, DecidableEq

/-- `CosmosQueryAgentExecutor._send_error` (agent_executor.py 108-137):
error artifact, then FAILED status. -/
def sendError (errorMessage : String) : List CosmosEvent :=
  [ .artifactUpdate (some ("Sorry, I encountered an error while querying the Cosmos DB: " ++ errorMessage)) "Error",
    .statusUpdate "FAILED" "FAILED" errorMessage ]

/-- The first status event of the happy path. -/
def inProgressEvent : CosmosEvent :=
  .statusUpdate "IN_PROGRESS" "RUNNING" "Processing Cosmos DB query..."

/-- `CosmosQueryAgentExecutor.execute` (agent_executor.py 30-106) as the
list of events enqueued, in order.  `alreadyInit` is `self._initialized`,
`initSuccess` the value returned by `agent.initialize()`, `exn` the
exception behaviour of the framework calls in the `try` block. -/
def executorExecute (alreadyInit : Bool) (initSuccess : Bool) (query : String)
    (outcome : CallOutcome) (exn : ExnAt) : List CosmosEvent :=
  if !alreadyInit && !initSuccess then
    sendError "Failed to initialize Cosmos Query Agent"
  else
    match exn with
    | .noExn =>
      [ inProgressEvent,
        .artifactUpdate (process_query query outcome).response "Cosmos DB Query Result",
        .statusUpdate "COMPLETED" "COMPLETED" "Cosmos DB query completed successfully" ]
    | .atStatusEnqueue m => sendError ("Error executing Cosmos Query Agent task: " ++ m)
    | .atArtifactBuild m => inProgressEvent :: sendError ("Error executing Cosmos Query Agent task: " ++ m)
    | .atArtifactEnqueue m => inProgressEvent :: sendError ("Error executing Cosmos Query Agent task: " ++ m)
    | .atCompletedEnqueue m =>
      inProgressEvent ::
        .artifactUpdate (process_query query outcome).response "Cosmos DB Query Result" ::
          sendError ("Error executing Cosmos Query Agent task: " ++ m)

/-- `execute` with the initialization result wired to the agent's actual
`initialize` (needed fresh only when `alreadyInit` is false). -/
def executorExecuteFull (alreadyInit : Bool) (h : HealthOutcome) (query : String)
    (outcome : CallOutcome) (exn : ExnAt) : List CosmosEvent :=
  executorExecute alreadyInit (agentInit h) query outcome exn

/-! ### `SemanticKernelMCPAgentExecutor` (playwright_agent/agent_executor.py) -/

/-- One dict yielded by `agent.stream`, with the three keys the executor
reads. -/
structure StreamChunk where
  require_user_input : Bool
  is_task_complete : Bool
  content : String
deriving Repr, DecidableEq

/-- Events enqueued by the Playwright executor.  `statusUpdate` carries
the `TaskState` member name, the optional agent message text and the
`final` flag; `artifactUpdate` carries the artifact text and
`last_chunk`. -/
inductive SKEvent where
  | newTaskCreated
  | statusUpdate (state : String) (message : Option String) (final : Bool)
  | artifactUpdate (text : String) (lastChunk : Bool)
deriving Repr, DecidableEq

/-- The loop variables after `async for partial in self.agent.stream(...)`:
each iteration overwrites them, so afterwards they hold the last chunk,
or stay unbound (`none`) when the stream yielded nothing. -/
def skLoopVars (stream : List StreamChunk) : Option StreamChunk :=
  stream.foldl (fun _ p => some p) none

/-- `str()` of the NameError hit at `if require_input:` when the stream
yielded no chunk. -/
def skNameError : String := "name \x27require_input\x27 is not defined"

/-- The `try` block of `execute` after the stream loop (lines 80-144):
dispatch on the loop variables; touching them unbound raises NameError,
which the `except` turns into a FAILED status event. -/
def skTryBody (stream : List StreamChunk) : List SKEvent :=
  match skLoopVars stream with
  | none =>
    [ .statusUpdate "failed" (some ("Playwright agent execution failed: " ++ skNameError)) false ]
  | some p =>
    if p.require_user_input then
      [ .statusUpdate "input_required" (some p.content) true ]
    else if p.is_task_complete then
      [ .artifactUpdate p.content true,
        .statusUpdate "completed" none true ]
    else
      [ .statusUpdate "working" (some p.content) false ]

/-- `SemanticKernelMCPAgentExecutor.execute` (lines 30-144) as the list
of events enqueued: initialization (when not yet initialized), task
creation when there is no current task, then the stream dispatch. -/
def skExecute (alreadyInit : Bool) (initResult : Except String Unit)
    (hasCurrentTask : Bool) (stream : List StreamChunk) : List SKEvent :=
  if !alreadyInit then
    match initResult with
    | .error e =>
      (if hasCurrentTask then [] else [.newTaskCreated]) ++
        [ .statusUpdate "failed" (some ("Failed to initialize Playwright agent: " ++ e)) false ]
    | .ok _ =>
      (if hasCurrentTask then [] else [.newTaskCreated]) ++ skTryBody stream
  else
    (if hasCurrentTask then [] else [.newTaskCreated]) ++ skTryBody stream

/-- Outcome events as the claim describes them: a function of the last
yielded chunk only (`none` = empty stream). -/
def skLastOutcome (last : Option StreamChunk) : List SKEvent :=
  match last with
  | none =>
    [ .statusUpdate "failed" (some ("Playwright agent execution failed: " ++ skNameError)) false ]
  | some p =>
    if p.require_user_input then
      [ .statusUpdate "input_required" (some p.content) true ]
    else if p.is_task_complete then
      [ .artifactUpdate p.content true,
        .statusUpdate "completed" none true ]
    else
      [ .statusUpdate "working" (some p.content) false ]

/-! ### `test_mcp_complete.py` -/

/-- The two response headers the script inspects. -/
structure McpHeaders where
  mcpSessionId : Option String
  xSessionId : Option String
deriving Repr, DecidableEq

/-- `session_id = response.headers.get('mcp-session-id') or
response.headers.get('x-session-id')`: Python `or` takes the right
operand when the left is `None` **or** the empty string. -/
def extractSessionId (h : McpHeaders) : Option String :=
  match h.mcpSessionId with
  | some s => if s = "" then h.xSessionId else some s
  | none => h.xSessionId

/-- The session-extraction rule as the specification words it: the
`mcp-session-id` value when that header is present with a non-empty
value, otherwise the `x-session-id` value. -/
def claimedSessionId (h : McpHeaders) : Option String :=
  if h.mcpSessionId ≠ none ∧ h.mcpSessionId ≠ some "" then h.mcpSessionId
  else h.xSessionId

/-- Status and body of one `tools/list` POST. -/
structure AttemptResult where
  status : Nat
  body : String
deriving Repr, DecidableEq

/-- `tools_response.status_code == 200 and "error" not in
tools_response.text`. -/
def attemptOk (r : AttemptResult) : Bool :=
  r.status == 200 && !(pyIn "error" r.body)

/-- The `for header_name in ['mcp-session-id', 'x-session-id']` loop:
returns the header names actually posted, stopping after the first
successful attempt (both the `return tools` and the `break` leave the
loop). -/
def tryHeaders (attempt : String → AttemptResult) : List String → List String
  | [] => []
  | h :: rest =>
    if attemptOk (attempt h) then [h]
    else h :: tryHeaders attempt rest

/-- `test_mcp_complete` (test_mcp_complete.py lines 8-96), observed as
the list of header names under which `tools/list` is posted: none when
the extracted session id is falsy (`if not session_id: return`). -/
def test_mcp_complete (h : McpHeaders) (attempt : String → AttemptResult) : List String :=
  match extractSessionId h with
  | none => []
  | some s =>
    if s = "" then []
    else tryHeaders attempt ["mcp-session-id", "x-session-id"]

/-! ## Theorems for the claims -/

/-- C1 counterexample: the query "show me everything" matches the first
keyword group (it contains "show"), yet `process_query` calls no MCP tool
and returns Python `None` rather than the help text, because the first
group's body only returns when the query also mentions a container or
collection. -/
theorem C1_first_group_counterexample :
    pyIn "show" (pyLower "show me everything") = true
  ∧ (process_query "show me everything" (.transportError "down")).calls = []
  ∧ (process_query "show me everything" (.transportError "down")).response = none := by
  exact ⟨rfl, rfl, rfl⟩

/-- C1 (amended): `process_query` dispatches by the fixed keyword-group
sequence on the lowercased query and calls exactly the single MCP tool of
the first matching group, except that the first group (list/show/...)
additionally requires "container" or "collection" and otherwise makes no
tool call and returns `None`; a query matching no group returns the
`_handle_general_query` help text with no tool call. -/
theorem C1_process_query_routing (q : String) (o : CallOutcome) :
    match claimedRoute q with
    | .tool n =>
        (process_query q o).calls.map Prod.fst = [n]
      ∧ ((process_query q o).response).isSome = true
    | .skipped => process_query q o = { calls := [], response := none }
    | .help => process_query q o = { calls := [], response := some (handle_general_query q) } := by
  simp only [claimedRoute, process_query]
  repeat' split
  all_goals simp_all

/-- C2: on the query "list databases" the first keyword group matches but
the inner container/collection guard fails, so `process_query` falls off
the end of the `if` chain and returns `None` — contradicting its `-> str`
annotation and the claim that it always returns a text result. -/
theorem C2_returns_none_on_list_databases :
    (process_query "list databases" (.httpResponse 200 "" (.ok (.jobj [])))).response = none
  ∧ (process_query "list databases" (.httpResponse 200 "" (.ok (.jobj [])))).calls = [] := by
  exact ⟨rfl, rfl⟩

/-- C3 counterexample: on HTTP 200 with a `result` field whose `content`
is the empty list, `_call_mcp_tool` does not return the first content
item's text or "No result": the `[0]` lookup raises IndexError and the
catch-all turns it into an "Error calling tool: ..." string. -/
theorem C3_empty_content_counterexample :
    callMcpTool "query_cosmos" [] (.httpResponse 200 "body"
        (.ok (.jobj [("result", .jobj [("content", .jarr [])])]))) =
      .jstr "Error calling tool: list index out of range"
  ∧ JVal.jstr "Error calling tool: list index out of range" ≠ JVal.jstr "No result" := by
  refine ⟨rfl, ?_⟩
  simp

/-- C3 (amended): `_call_mcp_tool` always returns instead of raising; on
transport or JSON-parse exceptions it returns "Error calling tool: ...",
on a non-200 status "HTTP Error code: body", on 200 with a `result`
object it returns the `text` field of the first content item ("No result"
when the `text` or `content` field is absent) — when `content` is present
but the empty list the index lookup raises and the catch-all returns
"Error calling tool: list index out of range" — on 200 with an `error`
object "Error: message" ("Unknown error" when absent), and "Unknown
response format" on 200 with neither field. -/
theorem C3_call_mcp_tool_cases (n : String) (a : List (String × JVal)) :
    (∀ m, callMcpTool n a (.transportError m) = .jstr ("Error calling tool: " ++ m))
  ∧ (∀ st b p, st ≠ 200 →
      callMcpTool n a (.httpResponse st b p) =
        .jstr ("HTTP Error " ++ toString st ++ ": " ++ b))
  ∧ (∀ b m, callMcpTool n a (.httpResponse 200 b (.error m)) =
      .jstr ("Error calling tool: " ++ m))
  ∧ (∀ b fs rf, fs.lookup "result" = some (.jobj rf) → rf.lookup "content" = none →
      callMcpTool n a (.httpResponse 200 b (.ok (.jobj fs))) = .jstr "No result")
  ∧ (∀ b fs rf, fs.lookup "result" = some (.jobj rf) → rf.lookup "content" = some (.jarr []) →
      callMcpTool n a (.httpResponse 200 b (.ok (.jobj fs))) =
        .jstr "Error calling tool: list index out of range")
  ∧ (∀ b fs rf x xs xf, fs.lookup "result" = some (.jobj rf) →
      rf.lookup "content" = some (.jarr (x :: xs)) → x = .jobj xf →
      callMcpTool n a (.httpResponse 200 b (.ok (.jobj fs))) =
        (xf.lookup "text").getD (.jstr "No result"))
  ∧ (∀ b fs ef, fs.lookup "result" = none → fs.lookup "error" = some (.jobj ef) →
      callMcpTool n a (.httpResponse 200 b (.ok (.jobj fs))) =
        .jstr ("Error: " ++ pyStr ((ef.lookup "message").getD (.jstr "Unknown error"))))
  ∧ (∀ b fs, fs.lookup "result" = none → fs.lookup "error" = none →
      callMcpTool n a (.httpResponse 200 b (.ok (.jobj fs))) =
        .jstr "Unknown response format") := by
  refine ⟨fun m => rfl, ?_, ?_, ?_, ?_, ?_, ?_, ?_⟩
  · intro st b p hst
    simp [callMcpTool, callMcpToolBody, hst]
  · intro b m
    simp [callMcpTool, callMcpToolBody]
  · intro b fs rf hres hcon
    simp [callMcpTool, callMcpToolBody, pyContains, pySubscript, pyGetMethod, pyIndex0, hres, hcon]
  · intro b fs rf hres hcon
    simp [callMcpTool, callMcpToolBody, pyContains, pySubscript, pyGetMethod, pyIndex0, hres, hcon]
  · intro b fs rf x xs xf hres hcon hx
    subst hx
    simp [callMcpTool, callMcpToolBody, pyContains, pySubscript, pyGetMethod, pyIndex0, hres, hcon]
  · intro b fs ef hres herr
    simp [callMcpTool, callMcpToolBody, pyContains, pySubscript, pyGetMethod, hres, herr]
  · intro b fs hres herr
    simp [callMcpTool, callMcpToolBody, pyContains, pySubscript, hres, herr]

/-- Witness for the amended C3 theorem: a concrete non-200 response. -/
theorem C3_call_mcp_tool_cases_witness :
    callMcpTool "query_cosmos" [] (.httpResponse 404 "not found" (.error "x")) =
      .jstr ("HTTP Error " ++ toString (404 : Nat) ++ ": " ++ "not found") :=
  (C3_call_mcp_tool_cases "query_cosmos" []).2.1 404 "not found" (.error "x") (by decide)

/-- An execution-error message produced inside the `try` block can never
collide with the initialization-failure message (different lengths). -/
lemma execErrorMsg_ne_initMsg (m : String) :
    "Error executing Cosmos Query Agent task: " ++ m ≠
      "Failed to initialize Cosmos Query Agent" := by
  intro heq
  have hlen := congrArg String.length heq
  rw [String.length_append] at hlen
  have h1 : ("Error executing Cosmos Query Agent task: " : String).length = 41 := rfl
  have h2 : ("Failed to initialize Cosmos Query Agent" : String).length = 39 := rfl
  rw [h1, h2] at hlen
  omega

/-- Symmetric form of `execErrorMsg_ne_initMsg`. -/
lemma initMsg_ne_execErrorMsg (m : String) :
    "Failed to initialize Cosmos Query Agent" ≠
      "Error executing Cosmos Query Agent task: " ++ m :=
  fun heq => execErrorMsg_ne_initMsg m heq.symm

/-- C4: when initialization succeeds (or was already done) and no
exception is raised, `execute` enqueues exactly three events in order:
the IN_PROGRESS/RUNNING status, the artifact carrying the value returned
by `process_query`, and the COMPLETED/COMPLETED status. -/
theorem C4_success_event_sequence (alreadyInit initSuccess : Bool) (q : String)
    (o : CallOutcome) (hinit : alreadyInit = true ∨ initSuccess = true) :
    executorExecute alreadyInit initSuccess q o .noExn =
      [ inProgressEvent,
        .artifactUpdate (process_query q o).response "Cosmos DB Query Result",
        .statusUpdate "COMPLETED" "COMPLETED" "Cosmos DB query completed successfully" ] := by
  rcases hinit with h | h <;> subst h <;> simp [executorExecute]

/-- Witness for C4: a concrete successful execution. -/
theorem C4_success_event_sequence_witness :
    executorExecute true true "count documents" (.transportError "down") .noExn =
      [ inProgressEvent,
        .artifactUpdate (process_query "count documents" (.transportError "down")).response
          "Cosmos DB Query Result",
        .statusUpdate "COMPLETED" "COMPLETED" "Cosmos DB query completed successfully" ] :=
  C4_success_event_sequence true true "count documents" (.transportError "down") (Or.inl rfl)

/-- C5: whenever `execute` fails — initialization (when needed) returned
False, or an exception was raised inside the `try` block — the enqueued
trace ends with `_send_error`'s error artifact immediately followed by
the FAILED status, no COMPLETED status is ever enqueued, and the FAILED
status is the last event. -/
theorem C5_failure_event_sequence (alreadyInit initSuccess : Bool) (q : String)
    (o : CallOutcome) (e : ExnAt)
    (hfail : (alreadyInit = false ∧ initSuccess = false) ∨ e ≠ ExnAt.noExn) :
    ∃ m pre,
      executorExecute alreadyInit initSuccess q o e = pre ++ sendError m
      ∧ (∀ msg, CosmosEvent.statusUpdate "COMPLETED" "COMPLETED" msg ∉
          executorExecute alreadyInit initSuccess q o e)
      ∧ (executorExecute alreadyInit initSuccess q o e).getLast? =
          some (.statusUpdate "FAILED" "FAILED" m) := by
  by_cases hii : alreadyInit = false ∧ initSuccess = false
  · obtain ⟨ha, hi⟩ := hii
    subst ha; subst hi
    refine ⟨"Failed to initialize Cosmos Query Agent", [], rfl, ?_, rfl⟩
    intro msg
    simp [executorExecute, sendError]
  · have hbranch : (!alreadyInit && !initSuccess) = false := by
      cases alreadyInit <;> cases initSuccess <;> simp_all
    rcases hfail with h | he
    · exact absurd h hii
    · cases e with
      | noExn => exact absurd rfl he
      | atStatusEnqueue m =>
        refine ⟨"Error executing Cosmos Query Agent task: " ++ m, [], ?_, ?_, ?_⟩ <;>
          simp [executorExecute, hbranch, sendError, inProgressEvent]
      | atArtifactBuild m =>
        refine ⟨"Error executing Cosmos Query Agent task: " ++ m, [inProgressEvent], ?_, ?_, ?_⟩ <;>
          simp [executorExecute, hbranch, sendError, inProgressEvent]
      | atArtifactEnqueue m =>
        refine ⟨"Error executing Cosmos Query Agent task: " ++ m, [inProgressEvent], ?_, ?_, ?_⟩ <;>
          simp [executorExecute, hbranch, sendError, inProgressEvent]
      | atCompletedEnqueue m =>
        refine ⟨"Error executing Cosmos Query Agent task: " ++ m,
          [inProgressEvent,
           .artifactUpdate (process_query q o).response "Cosmos DB Query Result"], ?_, ?_, ?_⟩ <;>
          simp [executorExecute, hbranch, sendError, inProgressEvent]

/-- Witness for C5: a concrete failing execution (fresh executor whose
agent initialization reported failure). -/
theorem C5_failure_event_sequence_witness :
    ∃ m pre,
      executorExecute false false "q" (.transportError "down") .noExn = pre ++ sendError m
      ∧ (∀ msg, CosmosEvent.statusUpdate "COMPLETED" "COMPLETED" msg ∉
          executorExecute false false "q" (.transportError "down") .noExn)
      ∧ (executorExecute false false "q" (.transportError "down") .noExn).getLast? =
          some (.statusUpdate "FAILED" "FAILED" m) :=
  C5_failure_event_sequence false false "q" (.transportError "down") .noExn (Or.inl ⟨rfl, rfl⟩)

/-- C8: `CosmosQueryAgent.initialize` returns True for every health-probe
outcome, because `_test_mcp_connection` catches every exception itself;
wiring that result into the executor, the initialization check always
passes and the "Failed to initialize Cosmos Query Agent" FAILED status
can never be enqueued. -/
theorem C8_initialize_always_true :
    (∀ h, agentInit h = true)
  ∧ (∀ h alreadyInit q o e,
      executorExecuteFull alreadyInit h q o e = executorExecute alreadyInit true q o e)
  ∧ (∀ h alreadyInit q o e,
      CosmosEvent.statusUpdate "FAILED" "FAILED" "Failed to initialize Cosmos Query Agent" ∉
        executorExecuteFull alreadyInit h q o e) := by
  have hinit : ∀ h, agentInit h = true := by
    intro h
    unfold agentInit
    cases testMcpConnectionBody h <;> rfl
  have hfull : ∀ (h : HealthOutcome) (alreadyInit : Bool) (q : String) (o : CallOutcome)
      (e : ExnAt), executorExecuteFull alreadyInit h q o e = executorExecute alreadyInit true q o e := by
    intro h alreadyInit q o e
    rw [executorExecuteFull, hinit]
  refine ⟨hinit, hfull, ?_⟩
  intro h alreadyInit q o e
  rw [hfull]
  cases e <;>
    simp [executorExecute, sendError, inProgressEvent, initMsg_ne_execErrorMsg]

/-- C6: a query whose lowercase form contains "select" or "from" and
matches none of the seven earlier keyword groups is forwarded unchanged
as the "query" argument of the `query_cosmos` MCP tool, and the response
is the tool's result prefixed with "Query results:\n". -/
theorem C6_select_from_forwarding (q : String) (o : CallOutcome)
    (h1 : (pyIn "list" (pyLower q) || pyIn "show" (pyLower q) || pyIn "containers" (pyLower q) ||
        pyIn "collections" (pyLower q) || pyIn "databases" (pyLower q)) = false)
    (h2 : (pyIn "describe" (pyLower q) || pyIn "schema" (pyLower q) || pyIn "structure" (pyLower q) ||
        pyIn "fields" (pyLower q)) = false)
    (h3 : (pyIn "sample" (pyLower q) || pyIn "example" (pyLower q) || pyIn "preview" (pyLower q) ||
        pyIn "show me" (pyLower q)) = false)
    (h4 : (pyIn "count" (pyLower q) || pyIn "how many" (pyLower q) ||
        pyIn "number of" (pyLower q)) = false)
    (h5 : (pyIn "partition" (pyLower q) || pyIn "partitioning" (pyLower q) ||
        pyIn "partition key" (pyLower q)) = false)
    (h6 : (pyIn "index" (pyLower q) || pyIn "indexing" (pyLower q) ||
        pyIn "policy" (pyLower q)) = false)
    (h7 : (pyIn "relationship" (pyLower q) || pyIn "links" (pyLower q) ||
        pyIn "foreign key" (pyLower q) || pyIn "references" (pyLower q)) = false)
    (h8 : (pyIn "select" (pyLower q) || pyIn "from" (pyLower q)) = true) :
    process_query q o =
      { calls := [("query_cosmos", [("query", JVal.jstr q)])],
        response := some ("Query results:\n" ++
          pyStr (callMcpTool "query_cosmos" [("query", JVal.jstr q)] o)) } := by
  simp only [process_query, h1, h2, h3, h4, h5, h6, h7, h8]
  simp

/-- Witness for C6: the concrete SQL query "SELECT * FROM c". -/
theorem C6_select_from_forwarding_witness :
    process_query "SELECT * FROM c" (.transportError "down") =
      { calls := [("query_cosmos", [("query", JVal.jstr "SELECT * FROM c")])],
        response := some ("Query results:\n" ++
          pyStr (callMcpTool "query_cosmos" [("query", JVal.jstr "SELECT * FROM c")]
            (.transportError "down"))) } :=
  C6_select_from_forwarding "SELECT * FROM c" (.transportError "down")
    (by decide) (by decide) (by decide) (by decide) (by decide) (by decide) (by decide) (by decide)

/-- C9: when the sample-documents branch is the one taken, the limit is
`min(first digit run, 10)` when the query contains a digit and 5
otherwise, it never exceeds 10, and any "limit" argument actually sent to
the `get_sample_documents` MCP tool carries exactly that value — so the
tool is never invoked with a limit above 10. -/
theorem C9_sample_limit_capped (q : String) (o : CallOutcome)
    (h1 : (pyIn "list" (pyLower q) || pyIn "show" (pyLower q) || pyIn "containers" (pyLower q) ||
        pyIn "collections" (pyLower q) || pyIn "databases" (pyLower q)) = false)
    (h2 : (pyIn "describe" (pyLower q) || pyIn "schema" (pyLower q) || pyIn "structure" (pyLower q) ||
        pyIn "fields" (pyLower q)) = false)
    (h3 : (pyIn "sample" (pyLower q) || pyIn "example" (pyLower q) || pyIn "preview" (pyLower q) ||
        pyIn "show me" (pyLower q)) = true) :
    (∀ k, firstNumber q.toList = some k → sampleLimit q = min k 10)
  ∧ (firstNumber q.toList = none → sampleLimit q = 5)
  ∧ sampleLimit q ≤ 10
  ∧ (process_query q o).calls =
      [("get_sample_documents",
        sampleDocArgs (if pyIn "actions" (pyLower q) then some "actions" else none) (sampleLimit q))]
  ∧ (∀ args v, ("get_sample_documents", args) ∈ (process_query q o).calls →
      ("limit", v) ∈ args → v = .jnum (sampleLimit q) ∧ sampleLimit q ≤ 10) := by
  have hle : sampleLimit q ≤ 10 := by
    unfold sampleLimit
    cases firstNumber q.toList with
    | none => decide
    | some k => exact Nat.min_le_right k 10
  have hcalls : (process_query q o).calls =
      [("get_sample_documents",
        sampleDocArgs (if pyIn "actions" (pyLower q) then some "actions" else none)
          (sampleLimit q))] := by
    simp only [process_query, h1, h2, h3]
    simp
  refine ⟨?_, ?_, hle, hcalls, ?_⟩
  · intro k hk
    unfold sampleLimit
    rw [hk]
  · intro hk
    unfold sampleLimit
    rw [hk]
  · intro args v hmem hv
    rw [hcalls] at hmem
    simp only [List.mem_singleton, Prod.mk.injEq] at hmem
    obtain ⟨-, rfl⟩ := hmem
    refine ⟨?_, hle⟩
    rcases hargs : (if pyIn "actions" (pyLower q) then some "actions" else none : Option String) with
      _ | cn <;>
      rw [hargs] at hv <;>
      simp only [sampleDocArgs, optStrArgs] at hv
    · rcases hlim : decide (sampleLimit q = 5) with _ | _ <;> simp_all
    · rcases hlim : decide (sampleLimit q = 5) with _ | _ <;> split_ifs at hv <;> simp_all

/-- Witness for C9: a concrete query asking for 25 samples is capped to a
limit of 10. -/
theorem C9_sample_limit_capped_witness :
    sampleLimit "sample 25 documents" ≤ 10
  ∧ (process_query "sample 25 documents" (.transportError "down")).calls =
      [("get_sample_documents",
        sampleDocArgs (if pyIn "actions" (pyLower "sample 25 documents") then some "actions" else none)
          (sampleLimit "sample 25 documents"))] :=
  ⟨(C9_sample_limit_capped "sample 25 documents" (.transportError "down")
      (by decide) (by decide) (by decide)).2.2.1,
   (C9_sample_limit_capped "sample 25 documents" (.transportError "down")
      (by decide) (by decide) (by decide)).2.2.2.1⟩

/-- C7 counterexample: when the `mcp-session-id` header is present with
the empty-string value and `x-session-id` holds "abc", Python's `or`
skips the present `mcp-session-id` value and the script uses "abc" — the
claim's "if that header is present" rule would give "". -/
theorem C7_empty_header_counterexample :
    ({ mcpSessionId := some "", xSessionId := some "abc" } : McpHeaders).mcpSessionId = some ""
  ∧ extractSessionId { mcpSessionId := some "", xSessionId := some "abc" } = some "abc"
  ∧ extractSessionId { mcpSessionId := some "", xSessionId := some "abc" } ≠ some "" := by
  refine ⟨rfl, rfl, ?_⟩
  decide

/-- C7 (amended): the session ID is the `mcp-session-id` header value
when that header is present with a non-empty value, otherwise the
`x-session-id` value; the script stops before issuing `tools/list`
whenever the resulting session id is missing or empty; otherwise it posts
`tools/list` under `mcp-session-id` first and retries under
`x-session-id` exactly when the first attempt was not a success (HTTP
200 with no "error" substring in the body), stopping at the first
success. -/
theorem C7_session_header_fallback (h : McpHeaders) (attempt : String → AttemptResult) :
    extractSessionId h = claimedSessionId h
  ∧ ((extractSessionId h = none ∨ extractSessionId h = some "") →
      test_mcp_complete h attempt = [])
  ∧ (∀ s, extractSessionId h = some s → s ≠ "" →
      test_mcp_complete h attempt =
        if attemptOk (attempt "mcp-session-id") then ["mcp-session-id"]
        else ["mcp-session-id", "x-session-id"]) := by
  obtain ⟨m, x⟩ := h
  refine ⟨?_, ?_, ?_⟩
  · cases m with
    | none => simp [extractSessionId, claimedSessionId]
    | some s =>
      by_cases hs : s = "" <;>
        simp [extractSessionId, claimedSessionId, hs]
  · intro hfalsy
    rcases hfalsy with hnone | hempty
    · simp [test_mcp_complete, hnone]
    · simp [test_mcp_complete, hempty]
  · intro s hsid hne
    simp only [test_mcp_complete, hsid]
    rw [if_neg hne]
    by_cases hok : attemptOk (attempt "mcp-session-id") = true <;>
      simp [tryHeaders, hok]

/-- Witness for the amended C7 theorem: with no session header at all the
script issues no `tools/list` request. -/
theorem C7_session_header_fallback_witness :
    test_mcp_complete { mcpSessionId := none, xSessionId := none }
      (fun _ => { status := 404, body := "" }) = [] :=
  (C7_session_header_fallback { mcpSessionId := none, xSessionId := none }
      (fun _ => { status := 404, body := "" })).2.1 (Or.inl rfl)

/-- The loop variables after the stream loop hold exactly the last
yielded chunk. -/
lemma skLoopVars_eq_getLast? (stream : List StreamChunk) :
    skLoopVars stream = stream.getLast? := by
  have aux : ∀ (l : List StreamChunk) (acc : Option StreamChunk),
      l.foldl (fun _ p => some p) acc =
        match l.getLast? with
        | some y => some y
        | none => acc := by
    intro l
    induction l with
    | nil => intro acc; rfl
    | cons a l ih =>
      intro acc
      rw [List.foldl_cons, ih]
      cases l with
      | nil => rfl
      | cons b l' =>
        rw [List.getLast?_cons_cons]
        cases hl : (b :: l').getLast? with
        | none => simp at hl
        | some y => rfl
  rw [skLoopVars, aux]
  cases stream.getLast? <;> rfl

/-- C10: once initialization has succeeded, `execute` enqueues its
outcome events only from the loop variables left after the stream is
exhausted, so the single outcome depends only on the last yielded chunk
(intermediate chunks produce no events); an empty stream leaves
`require_input` unbound, and the resulting NameError takes the failed
path, enqueuing a FAILED TaskStatusUpdateEvent. -/
theorem C10_outcome_from_last_chunk (alreadyInit : Bool) (initResult : Except String Unit)
    (hasCurrentTask : Bool) (stream : List StreamChunk)
    (hini : alreadyInit = true ∨ initResult = .ok ()) :
    skExecute alreadyInit initResult hasCurrentTask stream =
      (if hasCurrentTask then [] else [SKEvent.newTaskCreated]) ++ skLastOutcome stream.getLast?
  ∧ (stream = [] →
      SKEvent.statusUpdate "failed"
          (some ("Playwright agent execution failed: " ++ skNameError)) false ∈
        skExecute alreadyInit initResult hasCurrentTask stream) := by
  have hbody : skTryBody stream = skLastOutcome stream.getLast? := by
    unfold skTryBody skLastOutcome
    rw [skLoopVars_eq_getLast?]
  have hmain : skExecute alreadyInit initResult hasCurrentTask stream =
      (if hasCurrentTask then [] else [SKEvent.newTaskCreated]) ++
        skLastOutcome stream.getLast? := by
    rcases hini with ha | hr
    · subst ha
      simp [skExecute, hbody]
    · subst hr
      cases alreadyInit <;> simp [skExecute, hbody]
  refine ⟨hmain, ?_⟩
  intro hnil
  subst hnil
  rw [hmain]
  simp [skLastOutcome]

/-- Witness for C10: a fresh, successfully initialized executor whose
stream yields nothing enqueues the FAILED status. -/
theorem C10_outcome_from_last_chunk_witness :
    SKEvent.statusUpdate "failed"
        (some ("Playwright agent execution failed: " ++ skNameError)) false ∈
      skExecute false (.ok ()) true [] :=
  (C10_outcome_from_last_chunk false (.ok ()) true [] (Or.inr rfl)).2 rfl
